import Mathlib

/-!
Verification of the ICMPv6 header parsing module (`src/icmpv6.rs`) of
`pktparse-rs`.

The module has two parts: a pure classifier `impl From<u16> for Icmpv6Code`
mapping the raw 16-bit (type byte, code byte) value to a closed enumeration,
and a streaming header decoder `parse_icmpv6_header` built from nom's
`number::streaming::be_u16`.

Embedding choices:
* Rust `u16` values are embedded as `Nat`; theorems that speak about 16-bit
  inputs carry the hypothesis `raw < 65536`.  `u16::to_be_bytes` becomes
  `raw / 256` (high byte) and `raw % 256` (low byte).
* A byte slice `&[u8]` is embedded as `List Nat`.
* nom's `IResult<&[u8], T>` with the streaming combinators is embedded as
  `Except ParseError (List Nat × T)`:  `Err(Err::Incomplete(Needed::new(n)))`
  becomes `.error (.Incomplete n)` and any hard error (`Err::Error` /
  `Err::Failure`, which this module never produces) becomes
  `.error (.Failure)`.
-/

namespace Icmpv6

/-- Modelled from the spec: `TimeExceeded` is imported from the crate's
`icmp` module (`use crate::icmp::TimeExceeded`), whose source is not part of
this module.  The spec records that the time-exceeded case wraps one of two
sub-reasons, and the classifier constructs exactly `TimeExceeded::TTL` and
`TimeExceeded::FragmentReassembly`. -/
inductive TimeExceeded where
  | TTL
  | FragmentReassembly
  deriving DecidableEq

/-- Rust enum `Unreachable` (`src/icmpv6.rs` lines 8-17). -/
inductive Unreachable where
  | NoRouteToDestination
  | CommunicationAdministrativelyProhibited
  | BeyondScopeOfSourceAddress
  | AddressUnreachable
  | PortUnreachable
  | SourceAddressFailedPolicy
  | RejectRouteToDestination
  | ErrorInSourceRoutingHeader
  deriving DecidableEq

/-- Rust enum `ParameterProblem` (lines 21-25). -/
inductive ParameterProblem where
  | ErroneousHeaderField
  | UnrecognizedNextHeader
  | UnrecognizedIPv6Option
  deriving DecidableEq

/-- Rust enum `RouterRenumbering` (lines 29-33). -/
inductive RouterRenumbering where
  | RouterRenumberingCommand
  | RouterRenumberingResult
  | SequenceNumberReset
  deriving DecidableEq

/-- Rust enum `NodeInformationQuery` (lines 37-41). -/
inductive NodeInformationQuery where
  | DataFieldContainsIPv6
  | DataFieldContainsNameOrEmpty
  | DataFieldContainsIPv4
  deriving DecidableEq

/-- Rust enum `NodeInformationResponse` (lines 45-49). -/
inductive NodeInformationResponse where
  | Successful
  | Refusal
  | UnknownQType
  deriving DecidableEq

/-- Rust enum `DuplicateAddressRequestCodeSuffix` (lines 53-59). -/
inductive DuplicateAddressRequestCodeSuffix where
  | DarMessage
  | EdarMessageWith64BitRovrField
  | EdarMessageWith128BitRovrField
  | EdarMessageWith192BitRovrField
  | EdarMessageWith256BitRovrField
  deriving DecidableEq

/-- Rust enum `DuplicateAddressConfirmationCodeSuffix` (lines 63-69). -/
inductive DuplicateAddressConfirmationCodeSuffix where
  | DacMessage
  | EdacMessageWith64BitRovrField
  | EdacMessageWith128BitRovrField
  | EdacMessageWith192BitRovrField
  | EdacMessageWith256BitRovrField
  deriving DecidableEq

/-- Rust enum `ExtendedEchoRequest` (lines 73-75). -/
inductive ExtendedEchoRequest where
  | NoError
  deriving DecidableEq

/-- Rust enum `ExtendedEchoReply` (lines 79-85). -/
inductive ExtendedEchoReply where
  | NoError
  | MalformedQuery
  | NoSuchInterface
  | NoSuchTableEntry
  | MultipleInterfacesStatisfyQuery
  deriving DecidableEq

/-- Rust enum `Icmpv6Code` (lines 89-137).  The `u16` payloads of
`PrivateExperimentation` and `Other` are embedded as `Nat`. -/
inductive Icmpv6Code where
  | DestinationUnreachable (u : Unreachable)
  | PacketTooBig
  | TimeExceeded (t : TimeExceeded)
  | ParameterProblem (p : ParameterProblem)
  | ReservedForError
  | EchoRequest
  | EchoReply
  | MulticastListenerQuery
  | MulticastListenerReport
  | MulticastListenerDone
  | RouterSolicitation
  | RouterAdvertisement
  | NeighborSolicitation
  | NeighborAdvertisement
  | RedirectMessage
  | RouterRenumbering (r : RouterRenumbering)
  | NodeInformationQuery (q : NodeInformationQuery)
  | NodeInformationResponse (r : NodeInformationResponse)
  | InverseNeighborDiscoverySolicitation
  | InverseNeighborDiscoveryAdvertisement
  | Version2MulticastListenerReport
  | HomeAgentAddressDiscoveryRequestMessage
  | HomeAgentAddressDiscoveryReplyMessage
  | MobilePrefixSolicitation
  | MobilePrefixAdvertisement
  | CertificationPathSolicitation
  | CertificationPathAdvertisement
  | ExperimentalMobilityProtocolMessage
  | MulticastRouterAdvertisement
  | MulticastRouterSolicitation
  | MulticastRouterTermination
  | FMIPv6Messages
  | RPLControlMessage
  | ILNPv6LocatorUpdateMessage
  | DuplicateAddressRequestCodeSuffix (d : DuplicateAddressRequestCodeSuffix)
  | DuplicateAddressConfirmationCodeSuffix (d : DuplicateAddressConfirmationCodeSuffix)
  | MPLControlMessage
  | ExtendedEchoRequest (e : ExtendedEchoRequest)
  | ExtendedEchoReply (e : ExtendedEchoReply)
  | ReservedForInformational
  | PrivateExperimentation (raw : Nat)
  | Reserved
  | Other (raw : Nat)
  deriving DecidableEq

/-- The match of `impl From<u16> for Icmpv6Code` (lines 142-246): dispatch
on the type byte `t`, then — for the subdividing types — on the code byte
`c`, with the original raw 16-bit value `raw` carried into the
`PrivateExperimentation` and `Other` fallbacks. -/
def Icmpv6Code.classify (t c raw : Nat) : Icmpv6Code :=
  match t with
  | 0x01 =>
    match c with
    | 0x00 => .DestinationUnreachable .NoRouteToDestination
    | 0x01 => .DestinationUnreachable .CommunicationAdministrativelyProhibited
    | 0x02 => .DestinationUnreachable .BeyondScopeOfSourceAddress
    | 0x03 => .DestinationUnreachable .AddressUnreachable
    | 0x04 => .DestinationUnreachable .PortUnreachable
    | 0x05 => .DestinationUnreachable .SourceAddressFailedPolicy
    | 0x06 => .DestinationUnreachable .RejectRouteToDestination
    | 0x07 => .DestinationUnreachable .ErrorInSourceRoutingHeader
    | _ => .Other raw
  | 0x02 => .PacketTooBig
  | 0x03 =>
    match c with
    | 0x00 => .TimeExceeded .TTL
    | 0x01 => .TimeExceeded .FragmentReassembly
    | _ => .Other raw
  | 0x04 =>
    match c with
    | 0x00 => .ParameterProblem .ErroneousHeaderField
    | 0x01 => .ParameterProblem .UnrecognizedNextHeader
    | 0x02 => .ParameterProblem .UnrecognizedIPv6Option
    | _ => .Other raw
  | 0x64 => .PrivateExperimentation raw
  | 0x65 => .PrivateExperimentation raw
  | 0x7F => .ReservedForError
  | 0x80 => .EchoRequest
  | 0x81 => .EchoReply
  | 0x82 => .MulticastListenerQuery
  | 0x83 => .MulticastListenerReport
  | 0x84 => .MulticastListenerDone
  | 0x85 => .RouterSolicitation
  | 0x86 => .RouterAdvertisement
  | 0x87 => .NeighborSolicitation
  | 0x88 => .NeighborAdvertisement
  | 0x89 => .RedirectMessage
  | 0x8A =>
    match c with
    | 0x00 => .RouterRenumbering .RouterRenumberingCommand
    | 0x01 => .RouterRenumbering .RouterRenumberingResult
    | 0xFF => .RouterRenumbering .SequenceNumberReset
    | _ => .Other raw
  | 0x8B =>
    match c with
    | 0x00 => .NodeInformationQuery .DataFieldContainsIPv6
    | 0x01 => .NodeInformationQuery .DataFieldContainsNameOrEmpty
    | 0x02 => .NodeInformationQuery .DataFieldContainsIPv4
    | _ => .Other raw
  | 0x8C =>
    match c with
    | 0x00 => .NodeInformationResponse .Successful
    | 0x01 => .NodeInformationResponse .Refusal
    | 0x02 => .NodeInformationResponse .UnknownQType
    | _ => .Other raw
  | 0x8D => .InverseNeighborDiscoverySolicitation
  | 0x8E => .InverseNeighborDiscoveryAdvertisement
  | 0x8F => .Version2MulticastListenerReport
  | 0x90 => .HomeAgentAddressDiscoveryRequestMessage
  | 0x91 => .HomeAgentAddressDiscoveryReplyMessage
  | 0x92 => .MobilePrefixSolicitation
  | 0x93 => .MobilePrefixAdvertisement
  | 0x94 => .CertificationPathSolicitation
  | 0x95 => .CertificationPathAdvertisement
  | 0x96 => .ExperimentalMobilityProtocolMessage
  | 0x97 => .MulticastRouterAdvertisement
  | 0x98 => .MulticastRouterSolicitation
  | 0x99 => .MulticastRouterTermination
  | 0x9A => .FMIPv6Messages
  | 0x9B => .RPLControlMessage
  | 0x9C => .ILNPv6LocatorUpdateMessage
  | 0x9D =>
    match c with
    | 0x00 => .DuplicateAddressRequestCodeSuffix .DarMessage
    | 0x01 => .DuplicateAddressRequestCodeSuffix .EdarMessageWith64BitRovrField
    | 0x02 => .DuplicateAddressRequestCodeSuffix .EdarMessageWith128BitRovrField
    | 0x03 => .DuplicateAddressRequestCodeSuffix .EdarMessageWith192BitRovrField
    | 0x04 => .DuplicateAddressRequestCodeSuffix .EdarMessageWith256BitRovrField
    | _ => .Other raw
  | 0x9E =>
    match c with
    | 0x00 => .DuplicateAddressConfirmationCodeSuffix .DacMessage
    | 0x01 => .DuplicateAddressConfirmationCodeSuffix .EdacMessageWith64BitRovrField
    | 0x02 => .DuplicateAddressConfirmationCodeSuffix .EdacMessageWith128BitRovrField
    | 0x03 => .DuplicateAddressConfirmationCodeSuffix .EdacMessageWith192BitRovrField
    | 0x04 => .DuplicateAddressConfirmationCodeSuffix .EdacMessageWith256BitRovrField
    | _ => .Other raw
  | 0x9F => .MPLControlMessage
  | 0xA0 =>
    match c with
    | 0x00 => .ExtendedEchoRequest .NoError
    | _ => .Other raw
  | 0xA1 =>
    match c with
    | 0x00 => .ExtendedEchoReply .NoError
    | 0x01 => .ExtendedEchoReply .MalformedQuery
    | 0x02 => .ExtendedEchoReply .NoSuchInterface
    | 0x03 => .ExtendedEchoReply .NoSuchTableEntry
    | 0x04 => .ExtendedEchoReply .MultipleInterfacesStatisfyQuery
    | _ => .Other raw
  | 0xC8 => .PrivateExperimentation raw
  | 0xC9 => .PrivateExperimentation raw
  | 0xFF => .ReservedForInformational
  | _ => .Other raw

/-- `impl From<u16> for Icmpv6Code` (lines 139-248).  `raw.to_be_bytes()`
yields high byte `t = raw / 256` and low byte `c = raw % 256` for any
`raw < 65536`; the body is `Icmpv6Code.classify`. -/
def Icmpv6Code.fromU16 (raw : Nat) : Icmpv6Code :=
  let t := raw / 256
  let c := raw % 256
  Icmpv6Code.classify t c raw

/-- The two outcomes a nom streaming parser can signal in this module:
`Incomplete n` embeds `Err::Incomplete(Needed::new(n))`; `Failure` embeds the
hard-error class (`Err::Error`/`Err::Failure`), which the module never
produces. -/
inductive ParseError where
  | Incomplete (needed : Nat)
  | Failure
  deriving DecidableEq

/-- nom's `number::streaming::be_u16`: reads two bytes big-endian, or signals
incomplete with the number of missing bytes. -/
def be_u16 : List Nat → Except ParseError (List Nat × Nat)
  | b1 :: b2 :: rest => .ok (rest, b1 * 256 + b2)
  | input => .error (.Incomplete (2 - input.length))

/-- Rust `parse_icmpv6_code` (lines 250-254). -/
def parse_icmpv6_code (input : List Nat) : Except ParseError (List Nat × Icmpv6Code) :=
  match be_u16 input with
  | .error e => .error e
  | .ok (input, code) => .ok (input, Icmpv6Code.fromU16 code)

/-- Rust enum `Icmpv6Data` (lines 258-268). -/
inductive Icmpv6Data where
  | EchoRequest (identifier sequence : Nat)
  | EchoReply (identifier sequence : Nat)
  | None
  deriving DecidableEq

/-- Rust `parse_echo_request` (lines 270-281). -/
def parse_echo_request (input : List Nat) : Except ParseError (List Nat × Icmpv6Data) :=
  match be_u16 input with
  | .error e => .error e
  | .ok (input, identifier) =>
    match be_u16 input with
    | .error e => .error e
    | .ok (input, sequence) => .ok (input, .EchoRequest identifier sequence)

/-- Rust `parse_echo_reply` (lines 283-294). -/
def parse_echo_reply (input : List Nat) : Except ParseError (List Nat × Icmpv6Data) :=
  match be_u16 input with
  | .error e => .error e
  | .ok (input, identifier) =>
    match be_u16 input with
    | .error e => .error e
    | .ok (input, sequence) => .ok (input, .EchoReply identifier sequence)

/-- Rust struct `Icmpv6Header` (lines 298-302). -/
structure Icmpv6Header where
  code : Icmpv6Code
  checksum : Nat
  data : Icmpv6Data
  deriving DecidableEq

/-- The `match code` payload dispatch inside `parse_icmpv6_header`
(lines 308-312), split out as a named function. -/
def parse_icmpv6_data (code : Icmpv6Code) (input : List Nat) :
    Except ParseError (List Nat × Icmpv6Data) :=
  match code with
  | .EchoRequest => parse_echo_request input
  | .EchoReply => parse_echo_reply input
  | _ => .ok (input, .None)

/-- Rust `parse_icmpv6_header` (lines 304-322). -/
def parse_icmpv6_header (input : List Nat) : Except ParseError (List Nat × Icmpv6Header) :=
  match parse_icmpv6_code input with
  | .error e => .error e
  | .ok (input, code) =>
    match be_u16 input with
    | .error e => .error e
    | .ok (input, checksum) =>
      match parse_icmpv6_data code input with
      | .error e => .error e
      | .ok (input, data) => .ok (input, ⟨code, checksum, data⟩)

/-- Number of input bytes `parse_icmpv6_header` needs before it can succeed,
given the code classified from the first two bytes: 8 for the echo kinds,
4 otherwise. -/
def codeLen : Icmpv6Code → Nat
  | .EchoRequest => 8
  | .EchoReply => 8
  | _ => 4

/-- Number of bytes the header decoder requires of a given input: 8 when the
first two bytes classify to an echo kind, 4 in every other case (including
inputs too short to hold the two classification bytes). -/
def requiredLen : List Nat → Nat
  | t :: c :: _ => codeLen (Icmpv6Code.fromU16 (t * 256 + c))
  | _ => 4

section Lemmas

set_option maxRecDepth 10000

theorem parse_icmpv6_data_eq (code : Icmpv6Code) (input : List Nat) :
    parse_icmpv6_data code input =
      if code = .EchoRequest then parse_echo_request input
      else if code = .EchoReply then parse_echo_reply input
      else .ok (input, .None) := by
  cases code <;> simp [parse_icmpv6_data]

theorem codeLen_eq (code : Icmpv6Code) :
    codeLen code =
      if code = .EchoRequest then 8 else if code = .EchoReply then 8 else 4 := by
  cases code <;> simp [codeLen]

theorem requiredLen_cons (t c b1 b2 : Nat) (rest : List Nat) :
    requiredLen (t :: c :: b1 :: b2 :: rest) =
      codeLen (Icmpv6Code.fromU16 (t * 256 + c)) := rfl

theorem parse_header_cons (t c b1 b2 : Nat) (rest : List Nat) :
    parse_icmpv6_header (t :: c :: b1 :: b2 :: rest) =
      match parse_icmpv6_data (Icmpv6Code.fromU16 (t * 256 + c)) rest with
      | .error e => .error e
      | .ok (remaining, data) =>
        .ok (remaining, ⟨Icmpv6Code.fromU16 (t * 256 + c), b1 * 256 + b2, data⟩) := rfl

theorem parse_echo_request_spec (input : List Nat) :
    (input.length < 4 → ∃ n, parse_echo_request input = .error (.Incomplete n)) ∧
    (4 ≤ input.length →
      ∃ rest i s, parse_echo_request input = .ok (rest, .EchoRequest i s)) := by
  match input with
  | [] => exact ⟨fun _ => ⟨2, rfl⟩, fun h => by simp at h⟩
  | [a] => exact ⟨fun _ => ⟨1, rfl⟩, fun h => by simp at h⟩
  | [a, b] => exact ⟨fun _ => ⟨2, rfl⟩, fun h => by simp at h⟩
  | [a, b, d] => exact ⟨fun _ => ⟨1, rfl⟩, fun h => by simp at h⟩
  | a :: b :: d :: e :: rest =>
    refine ⟨fun h => ?_, fun _ => ⟨rest, a * 256 + b, d * 256 + e, rfl⟩⟩
    simp at h
    omega

theorem parse_echo_reply_spec (input : List Nat) :
    (input.length < 4 → ∃ n, parse_echo_reply input = .error (.Incomplete n)) ∧
    (4 ≤ input.length →
      ∃ rest i s, parse_echo_reply input = .ok (rest, .EchoReply i s)) := by
  match input with
  | [] => exact ⟨fun _ => ⟨2, rfl⟩, fun h => by simp at h⟩
  | [a] => exact ⟨fun _ => ⟨1, rfl⟩, fun h => by simp at h⟩
  | [a, b] => exact ⟨fun _ => ⟨2, rfl⟩, fun h => by simp at h⟩
  | [a, b, d] => exact ⟨fun _ => ⟨1, rfl⟩, fun h => by simp at h⟩
  | a :: b :: d :: e :: rest =>
    refine ⟨fun h => ?_, fun _ => ⟨rest, a * 256 + b, d * 256 + e, rfl⟩⟩
    simp at h
    omega

theorem classify_ne_reserved (t c raw : Nat) :
    Icmpv6Code.classify t c raw ≠ .Reserved := by
  simp only [Icmpv6Code.classify]
  split <;> (try split) <;> simp

theorem fromU16_ne_reserved (raw : Nat) : Icmpv6Code.fromU16 raw ≠ .Reserved :=
  classify_ne_reserved (raw / 256) (raw % 256) raw

theorem fromU16_split (t c : Nat) (hc : c < 256) :
    Icmpv6Code.fromU16 (t * 256 + c) = Icmpv6Code.classify t c (t * 256 + c) := by
  have hdiv : (t * 256 + c) / 256 = t := by omega
  have hmod : (t * 256 + c) % 256 = c := by omega
  simp only [Icmpv6Code.fromU16, hdiv, hmod]

theorem parse_header_code_eq (input rest : List Nat) (hdr : Icmpv6Header)
    (h : parse_icmpv6_header input = .ok (rest, hdr)) :
    ∃ raw, hdr.code = Icmpv6Code.fromU16 raw := by
  match input with
  | [] => exact Except.noConfusion h
  | [t] => exact Except.noConfusion h
  | [t, c] => exact Except.noConfusion h
  | [t, c, b1] => exact Except.noConfusion h
  | t :: c :: b1 :: b2 :: rest0 =>
    rw [parse_header_cons] at h
    cases hd : parse_icmpv6_data (Icmpv6Code.fromU16 (t * 256 + c)) rest0 with
    | error e =>
      rw [hd] at h
      exact Except.noConfusion h
    | ok p =>
      obtain ⟨rest2, data⟩ := p
      rw [hd] at h
      injection h with h'
      injection h' with hr hh
      subst hh
      exact ⟨t * 256 + c, rfl⟩

end Lemmas

section Claims

set_option maxRecDepth 10000
set_option maxHeartbeats 2000000

/-- Claim C1: Totality of classification: for every one of the 65,536
possible 16-bit (type, code) values, the classifier
(`From<u16> for Icmpv6Code`) returns exactly one defined `MessageCode` value
and never fails or rejects the input. -/
theorem classify_total (raw : Nat) (_h : raw < 65536) :
    ∃! code : Icmpv6Code, Icmpv6Code.fromU16 raw = code :=
  ⟨Icmpv6Code.fromU16 raw, rfl, fun _ hy => hy.symm⟩

theorem classify_total_witness :
    ∃! code : Icmpv6Code, Icmpv6Code.fromU16 0x8000 = code :=
  classify_total 0x8000 (by decide)

/-- Claim C2, counterexample: the claim that for any two code bytes under the same
experimental type byte the classification results are equal fails: the
classifier returns `PrivateExperimentation(raw)` and `raw` contains the code
byte, so type byte `0x64` with code byte `0x00` and with code byte `0x01`
classify to different values. -/
theorem classify_experimental_code_dependent :
    Icmpv6Code.fromU16 0x6400 ≠ Icmpv6Code.fromU16 0x6401 := by decide

/-- Claim C2, amended: for every type byte in the private-experimentation ranges
(`0x64`, `0x65`, `0xC8`, `0xC9`) and every code byte `c`, the classifier
returns the `PrivateExperimentation` case — the same constructor regardless
of `c` — but it carries the full raw 16-bit value, which includes `c`, so
the carried values differ for different code bytes. -/
theorem classify_experimental_same_case :
    ∀ c < 256,
      Icmpv6Code.fromU16 (0x64 * 256 + c) = .PrivateExperimentation (0x64 * 256 + c) ∧
      Icmpv6Code.fromU16 (0x65 * 256 + c) = .PrivateExperimentation (0x65 * 256 + c) ∧
      Icmpv6Code.fromU16 (0xC8 * 256 + c) = .PrivateExperimentation (0xC8 * 256 + c) ∧
      Icmpv6Code.fromU16 (0xC9 * 256 + c) = .PrivateExperimentation (0xC9 * 256 + c) := by
  intro c hc
  refine ⟨?_, ?_, ?_, ?_⟩ <;> rw [fromU16_split _ _ hc] <;> rfl

theorem classify_experimental_same_case_witness :
    Icmpv6Code.fromU16 (0x64 * 256 + 0x07) = .PrivateExperimentation (0x64 * 256 + 0x07) ∧
    Icmpv6Code.fromU16 (0x65 * 256 + 0x07) = .PrivateExperimentation (0x65 * 256 + 0x07) ∧
    Icmpv6Code.fromU16 (0xC8 * 256 + 0x07) = .PrivateExperimentation (0xC8 * 256 + 0x07) ∧
    Icmpv6Code.fromU16 (0xC9 * 256 + 0x07) = .PrivateExperimentation (0xC9 * 256 + 0x07) :=
  classify_experimental_same_case 0x07 (by decide)

/-- Claim C4: for every type byte that subdivides by code byte, any code byte not
listed in that type's sub-table classifies to the generic `Other` fallback
carrying the full raw 16-bit value; in particular
`classify(0x01FF) = Other(0x01FF)`. -/
theorem classify_unknown_subcode_other :
    (∀ c < 256, c ∉ ([0, 1, 2, 3, 4, 5, 6, 7] : List Nat) →
      Icmpv6Code.fromU16 (0x01 * 256 + c) = .Other (0x01 * 256 + c)) ∧
    (∀ c < 256, c ∉ ([0, 1] : List Nat) →
      Icmpv6Code.fromU16 (0x03 * 256 + c) = .Other (0x03 * 256 + c)) ∧
    (∀ c < 256, c ∉ ([0, 1, 2] : List Nat) →
      Icmpv6Code.fromU16 (0x04 * 256 + c) = .Other (0x04 * 256 + c)) ∧
    (∀ c < 256, c ∉ ([0, 1, 0xFF] : List Nat) →
      Icmpv6Code.fromU16 (0x8A * 256 + c) = .Other (0x8A * 256 + c)) ∧
    (∀ c < 256, c ∉ ([0, 1, 2] : List Nat) →
      Icmpv6Code.fromU16 (0x8B * 256 + c) = .Other (0x8B * 256 + c)) ∧
    (∀ c < 256, c ∉ ([0, 1, 2] : List Nat) →
      Icmpv6Code.fromU16 (0x8C * 256 + c) = .Other (0x8C * 256 + c)) ∧
    (∀ c < 256, c ∉ ([0, 1, 2, 3, 4] : List Nat) →
      Icmpv6Code.fromU16 (0x9D * 256 + c) = .Other (0x9D * 256 + c)) ∧
    (∀ c < 256, c ∉ ([0, 1, 2, 3, 4] : List Nat) →
      Icmpv6Code.fromU16 (0x9E * 256 + c) = .Other (0x9E * 256 + c)) ∧
    (∀ c < 256, c ∉ ([0] : List Nat) →
      Icmpv6Code.fromU16 (0xA0 * 256 + c) = .Other (0xA0 * 256 + c)) ∧
    (∀ c < 256, c ∉ ([0, 1, 2, 3, 4] : List Nat) →
      Icmpv6Code.fromU16 (0xA1 * 256 + c) = .Other (0xA1 * 256 + c)) ∧
    Icmpv6Code.fromU16 0x01FF = .Other 0x01FF := by
  refine ⟨?_, ?_, ?_, ?_, ?_, ?_, ?_, ?_, ?_, ?_, by decide⟩
  all_goals intro c hc hmem
  all_goals rw [fromU16_split _ _ hc]
  all_goals unfold Icmpv6Code.classify
  all_goals split <;> simp_all

theorem classify_unknown_subcode_other_witness :
    Icmpv6Code.fromU16 (0x8A * 256 + 0x30) = .Other (0x8A * 256 + 0x30) :=
  classify_unknown_subcode_other.2.2.2.1 0x30 (by decide) (by decide)

/-- Claim C8: classification is deterministic and referentially transparent — equal
raw 16-bit inputs give equal `MessageCode` results; `fromU16` is a pure
function of its argument. -/
theorem classify_deterministic (r1 r2 : Nat) (h : r1 = r2) :
    Icmpv6Code.fromU16 r1 = Icmpv6Code.fromU16 r2 := by rw [h]

theorem classify_deterministic_witness :
    Icmpv6Code.fromU16 0x0100 = Icmpv6Code.fromU16 0x0100 :=
  classify_deterministic 0x0100 0x0100 rfl

/-- Claim C9: for every code byte `c`, type byte `127` (`0x7F`) classifies to
`ReservedForError` and type byte `255` (`0xFF`) classifies to
`ReservedForInformational`. -/
theorem classify_reserved_boundary_types :
    ∀ c < 256,
      Icmpv6Code.fromU16 (0x7F * 256 + c) = .ReservedForError ∧
      Icmpv6Code.fromU16 (0xFF * 256 + c) = .ReservedForInformational := by
  intro c hc
  refine ⟨?_, ?_⟩ <;> rw [fromU16_split _ _ hc] <;> rfl

theorem classify_reserved_boundary_types_witness :
    Icmpv6Code.fromU16 (0x7F * 256 + 0x2A) = .ReservedForError ∧
    Icmpv6Code.fromU16 (0xFF * 256 + 0x2A) = .ReservedForInformational :=
  classify_reserved_boundary_types 0x2A (by decide)

/-- Claim C3: the header decoder has exactly one failure mode.  For every
input with fewer bytes than the current field requires (shorter than 4
bytes, or shorter than 8 bytes when the classified code is echo-request or
echo-reply) `parse_icmpv6_header` returns the incomplete signal; for every
other input it returns a successful `Header`; it never returns a hard parse
error. -/
theorem parse_icmpv6_header_only_incomplete (input : List Nat) :
    (input.length < requiredLen input →
      ∃ n, parse_icmpv6_header input = .error (.Incomplete n)) ∧
    (requiredLen input ≤ input.length →
      ∃ rest hdr, parse_icmpv6_header input = .ok (rest, hdr)) ∧
    parse_icmpv6_header input ≠ .error .Failure := by
  match input with
  | [] =>
    have heq : parse_icmpv6_header [] = .error (.Incomplete 2) := rfl
    exact ⟨fun _ => ⟨2, heq⟩, fun h => by simp [requiredLen] at h, by simp [heq]⟩
  | [t] =>
    have heq : parse_icmpv6_header [t] = .error (.Incomplete 1) := rfl
    exact ⟨fun _ => ⟨1, heq⟩, fun h => by simp [requiredLen] at h, by simp [heq]⟩
  | [t, c] =>
    have heq : parse_icmpv6_header [t, c] = .error (.Incomplete 2) := rfl
    refine ⟨fun _ => ⟨2, heq⟩, fun h => ?_, by simp [heq]⟩
    rw [show requiredLen [t, c] = codeLen (Icmpv6Code.fromU16 (t * 256 + c)) from rfl,
      codeLen_eq] at h
    simp at h
    split_ifs at h <;> omega
  | [t, c, b1] =>
    have heq : parse_icmpv6_header [t, c, b1] = .error (.Incomplete 1) := rfl
    refine ⟨fun _ => ⟨1, heq⟩, fun h => ?_, by simp [heq]⟩
    rw [show requiredLen [t, c, b1] = codeLen (Icmpv6Code.fromU16 (t * 256 + c)) from rfl,
      codeLen_eq] at h
    simp at h
    split_ifs at h <;> omega
  | t :: c :: b1 :: b2 :: rest =>
    rw [parse_header_cons, requiredLen_cons]
    generalize Icmpv6Code.fromU16 (t * 256 + c) = code
    cases code
    case EchoRequest =>
      simp only [parse_icmpv6_data, codeLen]
      obtain ⟨hshort, hok⟩ := parse_echo_request_spec rest
      refine ⟨fun hlen => ?_, fun hlen => ?_, ?_⟩
      · have hr : rest.length < 4 := by simp at hlen; omega
        obtain ⟨n, hn⟩ := hshort hr
        rw [hn]
        exact ⟨n, rfl⟩
      · have hr : 4 ≤ rest.length := by simp at hlen; omega
        obtain ⟨rest2, i, s, hs⟩ := hok hr
        rw [hs]
        exact ⟨rest2, _, rfl⟩
      · rcases Nat.lt_or_ge rest.length 4 with hl | hl
        · obtain ⟨n, hn⟩ := hshort hl
          rw [hn]
          simp
        · obtain ⟨rest2, i, s, hs⟩ := hok hl
          rw [hs]
          simp
    case EchoReply =>
      simp only [parse_icmpv6_data, codeLen]
      obtain ⟨hshort, hok⟩ := parse_echo_reply_spec rest
      refine ⟨fun hlen => ?_, fun hlen => ?_, ?_⟩
      · have hr : rest.length < 4 := by simp at hlen; omega
        obtain ⟨n, hn⟩ := hshort hr
        rw [hn]
        exact ⟨n, rfl⟩
      · have hr : 4 ≤ rest.length := by simp at hlen; omega
        obtain ⟨rest2, i, s, hs⟩ := hok hr
        rw [hs]
        exact ⟨rest2, _, rfl⟩
      · rcases Nat.lt_or_ge rest.length 4 with hl | hl
        · obtain ⟨n, hn⟩ := hshort hl
          rw [hn]
          simp
        · obtain ⟨rest2, i, s, hs⟩ := hok hl
          rw [hs]
          simp
    all_goals
      exact ⟨fun hlen => absurd hlen (by simp [codeLen]),
        fun _ => ⟨rest, _, rfl⟩, fun h => Except.noConfusion h⟩

theorem parse_icmpv6_header_only_incomplete_witness :
    (∃ n, parse_icmpv6_header [0x80] = .error (.Incomplete n)) ∧
    (∃ rest hdr, parse_icmpv6_header [0x01, 0x02, 0x00, 0x00] = .ok (rest, hdr)) :=
  ⟨(parse_icmpv6_header_only_incomplete [0x80]).1 (by decide),
   (parse_icmpv6_header_only_incomplete [0x01, 0x02, 0x00, 0x00]).2.1 (by decide)⟩

/-- Claim C5: fixed-fixture decoding.  Bytes `80 00 FD 00 00 01 00 1A`
(optionally followed by trailing bytes) decode to
`Header{ code = EchoRequest, checksum = 0xFD00, data = EchoRequest{1, 26} }`
with the trailing bytes returned unconsumed; bytes `81 00 FC 00 00 01 00 1A`
decode likewise to the `EchoReply` header; and bytes `01 02 00 00` decode to
`Header{ code = DestinationUnreachable(BeyondScopeOfSourceAddress),
checksum = 0, data = None }`.  All multi-byte fields are read big-endian. -/
theorem parse_fixed_fixtures :
    (∀ trailing : List Nat,
      parse_icmpv6_header
          (0x80 :: 0x00 :: 0xFD :: 0x00 :: 0x00 :: 0x01 :: 0x00 :: 0x1A :: trailing) =
        .ok (trailing, ⟨.EchoRequest, 0xFD00, .EchoRequest 1 26⟩)) ∧
    (∀ trailing : List Nat,
      parse_icmpv6_header
          (0x81 :: 0x00 :: 0xFC :: 0x00 :: 0x00 :: 0x01 :: 0x00 :: 0x1A :: trailing) =
        .ok (trailing, ⟨.EchoReply, 0xFC00, .EchoReply 1 26⟩)) ∧
    parse_icmpv6_header [0x01, 0x02, 0x00, 0x00] =
      .ok ([], ⟨.DestinationUnreachable .BeyondScopeOfSourceAddress, 0, .None⟩) :=
  ⟨fun _ => rfl, fun _ => rfl, rfl⟩

/-- Claim C6: non-echo kinds never carry payload.  For every input of at
least 4 bytes whose first two bytes classify to any code other than
`EchoRequest` or `EchoReply`, `parse_icmpv6_header` succeeds with the
no-payload data variant, consumes exactly 4 bytes, and returns the rest of
the input unconsumed. -/
theorem parse_non_echo_consumes_four (t c b1 b2 : Nat) (rest : List Nat)
    (h1 : Icmpv6Code.fromU16 (t * 256 + c) ≠ .EchoRequest)
    (h2 : Icmpv6Code.fromU16 (t * 256 + c) ≠ .EchoReply) :
    parse_icmpv6_header (t :: c :: b1 :: b2 :: rest) =
      .ok (rest, ⟨Icmpv6Code.fromU16 (t * 256 + c), b1 * 256 + b2, .None⟩) := by
  rw [parse_header_cons, parse_icmpv6_data_eq, if_neg h1, if_neg h2]

theorem parse_non_echo_consumes_four_witness :
    parse_icmpv6_header [0x01, 0x02, 0x00, 0x00, 0xAB] =
      .ok ([0xAB], ⟨Icmpv6Code.fromU16 (0x01 * 256 + 0x02), 0x00 * 256 + 0x00, .None⟩) :=
  parse_non_echo_consumes_four 0x01 0x02 0x00 0x00 [0xAB] (by decide) (by decide)

/-- Claim C7: code/data pairing invariant.  In every `Header` produced by
`parse_icmpv6_header`, the data variant is determined by the code: data is
the `EchoRequest` payload variant iff the code is `EchoRequest`, data is the
`EchoReply` payload variant iff the code is `EchoReply`, and data is `None`
for every other code. -/
theorem icmpv6_code_determines_data (input rest : List Nat) (hdr : Icmpv6Header)
    (h : parse_icmpv6_header input = .ok (rest, hdr)) :
    ((∃ i s, hdr.data = .EchoRequest i s) ↔ hdr.code = .EchoRequest) ∧
    ((∃ i s, hdr.data = .EchoReply i s) ↔ hdr.code = .EchoReply) ∧
    (hdr.code ≠ .EchoRequest → hdr.code ≠ .EchoReply → hdr.data = .None) := by
  match input with
  | [] => exact Except.noConfusion h
  | [t] => exact Except.noConfusion h
  | [t, c] => exact Except.noConfusion h
  | [t, c, b1] => exact Except.noConfusion h
  | t :: c :: b1 :: b2 :: rest0 =>
    rw [parse_header_cons] at h
    generalize Icmpv6Code.fromU16 (t * 256 + c) = code at h
    cases code
    case EchoRequest =>
      rcases Nat.lt_or_ge rest0.length 4 with hl | hl
      · obtain ⟨n, hn⟩ := (parse_echo_request_spec rest0).1 hl
        rw [show parse_icmpv6_data .EchoRequest rest0 = parse_echo_request rest0 from rfl,
          hn] at h
        exact Except.noConfusion h
      · obtain ⟨rest2, i, s, hs⟩ := (parse_echo_request_spec rest0).2 hl
        rw [show parse_icmpv6_data .EchoRequest rest0 = parse_echo_request rest0 from rfl,
          hs] at h
        injection h with h'
        injection h' with hr hh
        subst hh
        simp
    case EchoReply =>
      rcases Nat.lt_or_ge rest0.length 4 with hl | hl
      · obtain ⟨n, hn⟩ := (parse_echo_reply_spec rest0).1 hl
        rw [show parse_icmpv6_data .EchoReply rest0 = parse_echo_reply rest0 from rfl,
          hn] at h
        exact Except.noConfusion h
      · obtain ⟨rest2, i, s, hs⟩ := (parse_echo_reply_spec rest0).2 hl
        rw [show parse_icmpv6_data .EchoReply rest0 = parse_echo_reply rest0 from rfl,
          hs] at h
        injection h with h'
        injection h' with hr hh
        subst hh
        simp
    all_goals
      rw [parse_icmpv6_data_eq, if_neg (by simp), if_neg (by simp)] at h
    all_goals
      injection h with h'
    all_goals
      injection h' with hr hh
    all_goals
      subst hh
    all_goals
      simp

theorem icmpv6_code_determines_data_witness :
    ((∃ i s, (⟨.EchoRequest, 0xFD00, .EchoRequest 1 26⟩ : Icmpv6Header).data = .EchoRequest i s) ↔
      (⟨.EchoRequest, 0xFD00, .EchoRequest 1 26⟩ : Icmpv6Header).code = .EchoRequest) ∧
    ((∃ i s, (⟨.EchoRequest, 0xFD00, .EchoRequest 1 26⟩ : Icmpv6Header).data = .EchoReply i s) ↔
      (⟨.EchoRequest, 0xFD00, .EchoRequest 1 26⟩ : Icmpv6Header).code = .EchoReply) ∧
    ((⟨.EchoRequest, 0xFD00, .EchoRequest 1 26⟩ : Icmpv6Header).code ≠ .EchoRequest →
      (⟨.EchoRequest, 0xFD00, .EchoRequest 1 26⟩ : Icmpv6Header).code ≠ .EchoReply →
      (⟨.EchoRequest, 0xFD00, .EchoRequest 1 26⟩ : Icmpv6Header).data = .None) :=
  icmpv6_code_determines_data [0x80, 0x00, 0xFD, 0x00, 0x00, 0x01, 0x00, 0x1A] []
    ⟨.EchoRequest, 0xFD00, .EchoRequest 1 26⟩ rfl

/-- Claim C10 (implicit): the `Icmpv6Code::Reserved` variant is unreachable
from classification — for every 16-bit input the classifier never returns
the bare `Reserved` variant, so no decode ever produces a `Header` whose
code is `Reserved`. -/
theorem classify_never_reserved :
    (∀ raw, raw < 65536 → Icmpv6Code.fromU16 raw ≠ .Reserved) ∧
    (∀ input rest hdr, parse_icmpv6_header input = .ok (rest, hdr) →
      hdr.code ≠ .Reserved) := by
  refine ⟨fun raw _ => fromU16_ne_reserved raw, fun input rest hdr h => ?_⟩
  obtain ⟨raw, hc⟩ := parse_header_code_eq input rest hdr h
  rw [hc]
  exact fromU16_ne_reserved raw

theorem classify_never_reserved_witness :
    Icmpv6Code.fromU16 0x8000 ≠ Icmpv6Code.Reserved :=
  classify_never_reserved.1 0x8000 (by decide)

end Claims

end Icmpv6
